import Mathlib

/-!
# cryptoTools: the TLS adapter header `cryptoTools/Network/TLS.h`

A shallow embedding of the declarations of `TLS.h` (error taxonomy,
`OpenSSLContext`, `OpenSSLSocket`) and theorems about them.

Conventions
* a C++ `int` value is an `Int`; no arithmetic is performed on the codes, so
  no wrap-around is involved;
* `enum class E` (underlying type `int`) is a one-field structure over `Int`:
  `static_cast<E>(n)` is defined for every `int n`, exactly as in C++;
* a pointer that may be null is an `Option`;
* `std::terminate()` is the result `none` of an `Option`-valued function;
* a `void f(..., error_code& ec)` member is a function returning the new
  object together with the value written to `ec`.
-/

namespace osuCrypto

/-! ## Error taxonomy (TLS.h lines 45-154) -/

/-- The `enum class OpenSSL_errc`; any `int` can be cast to it. -/
structure OpenSSL_errc where
  val : Int
deriving DecidableEq, Repr

namespace OpenSSL_errc
/-- Enumerator `Success = 0`. -/
def Success : OpenSSL_errc := ⟨0⟩
/-- Enumerator `Failure = 1`. -/
def Failure : OpenSSL_errc := ⟨1⟩
end OpenSSL_errc

/-- The `enum class TLS_errc`; any `int` can be cast to it. -/
structure TLS_errc where
  val : Int
deriving DecidableEq, Repr

namespace TLS_errc
/-- Enumerator `Success = 0`. -/
def Success : TLS_errc := ⟨0⟩
/-- Enumerator `Failure` (implicit value 1). -/
def Failure : TLS_errc := ⟨1⟩
/-- Enumerator `ContextNotInit` (implicit value 2). -/
def ContextNotInit : TLS_errc := ⟨2⟩
/-- Enumerator `ContextAlreadyInit` (implicit value 3). -/
def ContextAlreadyInit : TLS_errc := ⟨3⟩
/-- Enumerator `ContextFailedToInit` (implicit value 4). -/
def ContextFailedToInit : TLS_errc := ⟨4⟩
/-- Enumerator `OnlyValidForServerContext` (implicit value 5). -/
def OnlyValidForServerContext : TLS_errc := ⟨5⟩
/-- Enumerator `SessionIDMismatch` (implicit value 6). -/
def SessionIDMismatch : TLS_errc := ⟨6⟩

/-- The enumerator list of `enum class TLS_errc`, in declaration order:
identifier and value. -/
def enumerators : List (String × TLS_errc) :=
  [ ("Success", Success),
    ("Failure", Failure),
    ("ContextNotInit", ContextNotInit),
    ("ContextAlreadyInit", ContextAlreadyInit),
    ("ContextFailedToInit", ContextFailedToInit),
    ("OnlyValidForServerContext", OnlyValidForServerContext),
    ("SessionIDMismatch", SessionIDMismatch) ]

/-- Name resolution `TLS_errc::<name>`: the enumerator declared under that
identifier, if there is one. -/
def ofName (name : String) : Option TLS_errc :=
  (enumerators.find? (fun p => p.1 == name)).map Prod.snd

end TLS_errc

/-- The two error categories defined in the header: the single instance of
`OpenSSLErrCategory` (which `make_error_code(OpenSSL_errc)` refers to) and
the single instance `TLSCategory` of `TLSErrCategory`. -/
inductive ErrCategory where
  | OpenSSLErrCategory
  | TLSErrCategory
deriving DecidableEq, Repr

/-- Member `name()` of the two categories. -/
def ErrCategory.name : ErrCategory → String
  | .OpenSSLErrCategory => "osuCrypto_OpenSSL"
  | .TLSErrCategory => "osuCrypto_TLS"

/-- The type `boost::system::error_code`: a value and a category. -/
structure error_code where
  val : Int
  cat : ErrCategory
deriving DecidableEq, Repr

/-- Member `error_code::failed()` (also `operator bool`): neither category
overrides `failed`, so it is `value() != 0`. -/
def error_code.failed (ec : error_code) : Bool := ec.val != 0

/-- `OpenSSLErrCategory::message(int err)`; `none` is `std::terminate()`. -/
def OpenSSLErrCategory.message (err : Int) : Option String :=
  if err = 0 then some "Success"
  else if err = 1 then some "Failure"
  else none

/-- `TLSErrCategory::message(int err)`: a `switch` over
`static_cast<TLS_errc>(err)` with a `default` label. -/
def TLSErrCategory.message (err : Int) : String :=
  let e : TLS_errc := ⟨err⟩
  if e = TLS_errc.Success then "Success"
  else if e = TLS_errc.Failure then "Generic Failure"
  else if e = TLS_errc.ContextNotInit then "TLS context not init"
  else if e = TLS_errc.ContextAlreadyInit then "TLS context is already init"
  else if e = TLS_errc.ContextFailedToInit then "TLS context failed to init"
  else if e = TLS_errc.OnlyValidForServerContext then
    "Operation is only valid for server initialized TLC context"
  else if e = TLS_errc.SessionIDMismatch then
    "Critical error on connect. Likely active attack by thirdparty"
  else "unknown error"

/-- Member `error_code::message()`: dispatches to the category with the
stored value. `none` is `std::terminate()`. -/
def error_code.message (ec : error_code) : Option String :=
  match ec.cat with
  | .OpenSSLErrCategory => OpenSSLErrCategory.message ec.val
  | .TLSErrCategory => some (TLSErrCategory.message ec.val)

/-- The overload `make_error_code(OpenSSL_errc e)`. -/
def make_error_code_OpenSSL (e : OpenSSL_errc) : error_code :=
  let ee : Int := e.val
  ⟨ee, .OpenSSLErrCategory⟩

/-- The overload `make_error_code(TLS_errc e)`. -/
def make_error_code_TLS (e : TLS_errc) : error_code :=
  let ee : Int := e.val
  ⟨ee, .TLSErrCategory⟩

/-- The function `ssl_error_code(int ret)`. -/
def ssl_error_code (ret : Int) : error_code :=
  let OPENSSL_SUCCESS : Int := 0
  let OPENSSL_FAILURE : Int := 1
  if ret = OPENSSL_SUCCESS then make_error_code_OpenSSL OpenSSL_errc.Success
  else if ret = OPENSSL_FAILURE then make_error_code_OpenSSL OpenSSL_errc.Failure
  else make_error_code_OpenSSL (OpenSSL_errc.mk ret)

/-! ## OpenSSLContext (TLS.h lines 156-211) -/

/-- A byte buffer (`span<u8>`, `std::vector<u8>`). -/
abbrev Bytes := List Nat

/-- The `enum class OpenSSLContext::Mode`. -/
inductive Mode where
  | Client
  | Server
  | Both
deriving DecidableEq, Repr

/-- Modelled from the spec: the engine object behind `SSL_CTX*`, whose type is
declared by the engine library and not by this repository. It carries what the
spec lists for a credential context besides the role: the loaded certificates,
the loaded key pair and the require-peer-certificate flag. -/
structure SSL_CTX where
  certs : List Bytes := []
  keyPair : Option (Bytes × Bytes) := none
  verifyPeer : Bool := false
deriving DecidableEq, Repr

/-- Modelled from the spec: the engine call that adds a certificate to the
context; the engine is not part of this repository. -/
def SSL_CTX.addCert (data : Bytes) (x : SSL_CTX) : SSL_CTX :=
  { x with certs := x.certs ++ [data] }

/-- Modelled from the spec: the engine call that installs a key pair; the
engine is not part of this repository. -/
def SSL_CTX.setKeyPair (pk sk : Bytes) (x : SSL_CTX) : SSL_CTX :=
  { x with keyPair := some (pk, sk) }

/-- Modelled from the spec: the engine call that makes the context require a
peer certificate; the engine is not part of this repository. -/
def SSL_CTX.setVerifyPeer (x : SSL_CTX) : SSL_CTX :=
  { x with verifyPeer := true }

/-- The `struct OpenSSLContext::Base` with its default member initialisers.
`mMethod` is an engine handle. -/
structure Base where
  mMethod : Option Nat := none
  mCtx : Option SSL_CTX := none
  mMode : Mode := Mode.Client
deriving DecidableEq, Repr

/-- The `struct OpenSSLContext`: the only data member is
`std::shared_ptr<Base> mBase`, empty after default construction. -/
structure OpenSSLContext where
  mBase : Option Base := none
deriving DecidableEq, Repr

namespace OpenSSLContext

/-- Member `isInit()`: `mBase != nullptr`. -/
def isInit (c : OpenSSLContext) : Bool := c.mBase != none

/-- Member `mode()`. -/
def mode (c : OpenSSLContext) : Mode :=
  if c.isInit then
    match c.mBase with
    | some b => b.mMode
    | none => Mode.Both -- not reached: `isInit` holds
  else Mode.Both

/-- Member `operator bool()`. -/
def toBool (c : OpenSSLContext) : Bool := c.isInit

/-- Member `operator SSL_CTX*()`: `mBase ? mBase->mCtx : nullptr`. -/
def toSSL_CTX (c : OpenSSLContext) : Option SSL_CTX :=
  match c.mBase with
  | some b => b.mCtx
  | none => none

end OpenSSLContext

/-- Modelled from the spec: the result of the declared function
`readFile(file, buffer)`, whose body is not in the header: the error code it
returns and the bytes it leaves in `buffer`. -/
abbrev FileReader := String → error_code × Bytes

namespace OpenSSLContext

/-- Modelled from the spec: `OpenSSLContext::init(Mode, error_code&)`, declared
in the header without a body. It fails with `ContextAlreadyInit` when the
context is initialised already, with `ContextFailedToInit` when the engine
rejects the role or configuration (`engineOk = false`), and otherwise stores
the role in a fresh `Base`. -/
def init (c : OpenSSLContext) (mode : Mode) (engineOk : Bool) :
    OpenSSLContext × error_code :=
  if c.isInit then (c, make_error_code_TLS TLS_errc.ContextAlreadyInit)
  else if engineOk then
    ({ mBase := some { mMethod := some 0, mCtx := some {}, mMode := mode } },
      make_error_code_TLS TLS_errc.Success)
  else (c, make_error_code_TLS TLS_errc.ContextFailedToInit)

/-- Modelled from the spec: `OpenSSLContext::loadCert(span<u8>, error_code&)`,
declared without a body. It requires a prior successful `init`; the engine's
return code `ret` for the certificate is forwarded by `ssl_error_code`. -/
def loadCert (c : OpenSSLContext) (data : Bytes) (ret : Int) :
    OpenSSLContext × error_code :=
  match c.mBase with
  | none => (c, make_error_code_TLS TLS_errc.ContextNotInit)
  | some b =>
    if ret = 0 then
      ({ mBase := some { b with mCtx := Option.map (SSL_CTX.addCert data) b.mCtx } },
        ssl_error_code ret)
    else (c, ssl_error_code ret)

/-- Modelled from the spec: `OpenSSLContext::loadCertFile(std::string,
error_code&)`, declared without a body: the path variant of `loadCert`. -/
def loadCertFile (c : OpenSSLContext) (readFile : FileReader) (path : String)
    (ret : Int) : OpenSSLContext × error_code :=
  if c.isInit then
    let r := readFile path
    if r.1.failed then (c, r.1) else c.loadCert r.2 ret
  else (c, make_error_code_TLS TLS_errc.ContextNotInit)

/-- Modelled from the spec: `OpenSSLContext::loadKeyPair(span<u8>, span<u8>,
error_code&)`, declared without a body. It requires a prior successful `init`;
the engine's return code `ret` is forwarded by `ssl_error_code`. -/
def loadKeyPair (c : OpenSSLContext) (pkData skData : Bytes) (ret : Int) :
    OpenSSLContext × error_code :=
  match c.mBase with
  | none => (c, make_error_code_TLS TLS_errc.ContextNotInit)
  | some b =>
    if ret = 0 then
      ({ mBase := some { b with mCtx := Option.map (SSL_CTX.setKeyPair pkData skData) b.mCtx } },
        ssl_error_code ret)
    else (c, ssl_error_code ret)

/-- Modelled from the spec: `OpenSSLContext::loadKeyPairFile(std::string,
std::string, error_code&)`, declared without a body: the path variant of
`loadKeyPair`. -/
def loadKeyPairFile (c : OpenSSLContext) (readFile : FileReader)
    (pkPath skPath : String) (ret : Int) : OpenSSLContext × error_code :=
  if c.isInit then
    let pk := readFile pkPath
    if pk.1.failed then (c, pk.1)
    else
      let sk := readFile skPath
      if sk.1.failed then (c, sk.1) else c.loadKeyPair pk.2 sk.2 ret
  else (c, make_error_code_TLS TLS_errc.ContextNotInit)

/-- Modelled from the spec: `OpenSSLContext::requestClientCert(error_code&)`,
declared without a body (the spec's `requestPeerCertificate`). It requires a
prior successful `init`, is valid only when the role is `Server` or `Both`,
and then sets the require-peer-certificate flag. -/
def requestClientCert (c : OpenSSLContext) : OpenSSLContext × error_code :=
  match c.mBase with
  | none => (c, make_error_code_TLS TLS_errc.ContextNotInit)
  | some b =>
    match b.mMode with
    | Mode.Client => (c, make_error_code_TLS TLS_errc.OnlyValidForServerContext)
    | _ =>
      ({ mBase := some { b with mCtx := Option.map SSL_CTX.setVerifyPeer b.mCtx } },
        make_error_code_TLS TLS_errc.Success)

end OpenSSLContext

/-! ## OpenSSLSocket (TLS.h lines 244-366) -/

/-- The type `boost::asio::mutable_buffer`: an address and a size. -/
structure buffer where
  data : Nat
  size : Nat
deriving DecidableEq, Repr

/-- The `enum class OpenSSLSocket::State::Phase`. -/
inductive Phase where
  | Uninit
  | Connect
  | Accept
  | Normal
  | Closed
deriving DecidableEq, Repr

/-- The `struct OpenSSLSocket::State` with its default member initialiser
`mPhase = Phase::Uninit`; the two spans are empty by default. -/
structure State where
  mPhase : Phase := Phase.Uninit
  mPendingSendBuf : Bytes := []
  mPendingRecvBuf : Bytes := []
deriving DecidableEq, Repr

/-- Member `State::hasPendingSend()`. -/
def State.hasPendingSend (st : State) : Bool := st.mPendingSendBuf.length > 0

/-- Member `State::hasPendingRecv()`. -/
def State.hasPendingRecv (st : State) : Bool := st.mPendingRecvBuf.length > 0

/-- The data members of `struct OpenSSLSocket` that carry the socket's state,
with their default member initialisers. `mSockOpen` says whether the transport
`mSock` holds an open connection; `mSSL` is the engine session handle. The
strand, the io_context reference, the log, the stored error codes and the
callbacks are left out. -/
structure OpenSSLSocket where
  mSockOpen : Bool := false
  mSSL : Option Nat := none
  mSendBufs : List buffer := []
  mRecvBufs : List buffer := []
  mSendBufIdx : Nat := 0
  mRecvBufIdx : Nat := 0
  mSendBT : Nat := 0
  mRecvBT : Nat := 0
  mCancelingPending : Bool := false
  mState : State := {}
deriving DecidableEq, Repr

namespace OpenSSLSocket

/-- Member `hasRecvBuffer()`. -/
def hasRecvBuffer (s : OpenSSLSocket) : Bool := s.mRecvBufIdx < s.mRecvBufs.length

/-- Member `curRecvBuffer()`: `mRecvBufs[mRecvBufIdx]`; `none` is an access
outside the vector. -/
def curRecvBuffer (s : OpenSSLSocket) : Option buffer := s.mRecvBufs[s.mRecvBufIdx]?

/-- Member `hasSendBuffer()`. -/
def hasSendBuffer (s : OpenSSLSocket) : Bool := s.mSendBufIdx < s.mSendBufs.length

/-- Member `curSendBuffer()`: `mSendBufs[mSendBufIdx]`; `none` is an access
outside the vector. -/
def curSendBuffer (s : OpenSSLSocket) : Option buffer := s.mSendBufs[s.mSendBufIdx]?

end OpenSSLSocket

/-- A resource release performed by a socket operation: the engine call
`SSL_free(mSSL)` on a session handle, or closing the transport `mSock`. -/
inductive Effect where
  | SSL_free (h : Nat)
  | sockClose
deriving DecidableEq, Repr

/-- The completions and caller operations that drive a socket. The first six
are the members declared in the header; the last three are the outcomes the
spec names for a suspended operation. -/
inductive Event where
  | async_connect
  | async_accept
  | async_send (buffers : List buffer)
  | async_recv (buffers : List buffer)
  | cancel
  | close
  | handshakeDone (sessionIDMatches : Bool)
  | failure
  | completion
deriving DecidableEq, Repr

namespace OpenSSLSocket

/-- Modelled from the spec: the two declared constructors of `OpenSSLSocket`,
whose bodies are not in the header. A socket owns one engine session and one
transport (open already when an established `tcp::socket` is moved in); every
other member keeps its default member initialiser. -/
def new (ssl : Option Nat) (sockOpen : Bool) : OpenSSLSocket :=
  { mSSL := ssl, mSockOpen := sockOpen }

/-- Set the phase, leaving everything else as it is. -/
def setPhase (s : OpenSSLSocket) (p : Phase) : OpenSSLSocket :=
  { s with mState := { s.mState with mPhase := p } }

/-- Modelled from the spec: `OpenSSLSocket::close()`, declared in the header
without a body. It releases the engine session and the transport, each only
if still held, and leaves the socket in phase `Closed`. The second component
lists the releases performed. -/
def close (s : OpenSSLSocket) : OpenSSLSocket × List Effect :=
  let freed : List Effect :=
    match s.mSSL with
    | some h => [Effect.SSL_free h]
    | none => []
  let closed : List Effect := if s.mSockOpen then [Effect.sockClose] else []
  (({ s with mSSL := none, mSockOpen := false } : OpenSSLSocket).setPhase Phase.Closed,
    freed ++ closed)

/-- The destructor `~OpenSSLSocket()`: `close(); if (mSSL) SSL_free(mSSL);`.
The result lists the releases performed. -/
def destructor (s : OpenSSLSocket) : List Effect :=
  let r := s.close
  match r.1.mSSL with
  | some h => r.2 ++ [Effect.SSL_free h]
  | none => r.2

/-- Modelled from the spec: `OpenSSLSocket::async_connect`, declared without a
body. It starts the handshake of a socket in phase `Uninit`; in any other
phase the call is rejected. -/
def async_connect (s : OpenSSLSocket) : OpenSSLSocket :=
  if s.mState.mPhase = Phase.Uninit then s.setPhase Phase.Connect else s

/-- Modelled from the spec: `OpenSSLSocket::async_accept`, declared without a
body. It starts the handshake of a socket in phase `Uninit`; in any other
phase the call is rejected. -/
def async_accept (s : OpenSSLSocket) : OpenSSLSocket :=
  if s.mState.mPhase = Phase.Uninit then s.setPhase Phase.Accept else s

/-- Modelled from the spec: `OpenSSLSocket::async_send`, declared without a
body. On an established socket it records the buffer list with the cursor and
the byte total at zero; before `Normal`, or once `Closed`, nothing starts. -/
def async_send (s : OpenSSLSocket) (buffers : List buffer) : OpenSSLSocket :=
  if s.mState.mPhase = Phase.Normal then
    { s with mSendBufs := buffers, mSendBufIdx := 0, mSendBT := 0 }
  else s

/-- Modelled from the spec: `OpenSSLSocket::async_recv`, declared without a
body. On an established socket it records the buffer list with the cursor and
the byte total at zero; before `Normal`, or once `Closed`, nothing starts. -/
def async_recv (s : OpenSSLSocket) (buffers : List buffer) : OpenSSLSocket :=
  if s.mState.mPhase = Phase.Normal then
    { s with mRecvBufs := buffers, mRecvBufIdx := 0, mRecvBT := 0 }
  else s

/-- Modelled from the spec: `OpenSSLSocket::cancel()`, declared without a
body. It sets the cancellation-requested flag and aborts nothing. -/
def cancel (s : OpenSSLSocket) : OpenSSLSocket :=
  { s with mCancelingPending := true }

/-- Modelled from the spec: the end of the handshake (`connectNext`,
`acceptNext`, declared without a body) when the engine reports `Done`. A
handshaking socket becomes `Normal`, or `Closed` on a session identity
mismatch; outside a handshake nothing happens. -/
def handshakeDone (s : OpenSSLSocket) (sessionIDMatches : Bool) : OpenSSLSocket :=
  if s.mState.mPhase = Phase.Connect ∨ s.mState.mPhase = Phase.Accept then
    if sessionIDMatches then s.setPhase Phase.Normal else s.setPhase Phase.Closed
  else s

/-- Modelled from the spec: an engine failure or transport error surfacing
during an operation; the socket goes to `Closed`. -/
def failure (s : OpenSSLSocket) : OpenSSLSocket := s.setPhase Phase.Closed

/-- Modelled from the spec: a completion path firing. It consults the
cancellation flag first; when set, the cancellation completes and the socket
goes to `Closed`. -/
def completion (s : OpenSSLSocket) : OpenSSLSocket :=
  if s.mCancelingPending then s.setPhase Phase.Closed else s

/-- One step of the socket under an event. -/
def step (s : OpenSSLSocket) : Event → OpenSSLSocket
  | Event.async_connect => s.async_connect
  | Event.async_accept => s.async_accept
  | Event.async_send bufs => s.async_send bufs
  | Event.async_recv bufs => s.async_recv bufs
  | Event.cancel => s.cancel
  | Event.close => s.close.1
  | Event.handshakeDone ok => s.handshakeDone ok
  | Event.failure => s.failure
  | Event.completion => s.completion

/-- The socket after a sequence of events. -/
def run (s : OpenSSLSocket) (es : List Event) : OpenSSLSocket := es.foldl step s

end OpenSSLSocket

/-- The edges of the phase diagram
`Uninit -> Connect | Accept -> Normal -> Closed`, with `Closed` reachable from
every phase. -/
def Phase.edge : Phase → Phase → Bool
  | Phase.Uninit, Phase.Connect => true
  | Phase.Uninit, Phase.Accept => true
  | Phase.Connect, Phase.Normal => true
  | Phase.Accept, Phase.Normal => true
  | _, Phase.Closed => true
  | _, _ => false

/-! ## Theorems: error taxonomy -/

/-- Claim C6: engine codes are forwarded verbatim. For every `ret`,
`ssl_error_code ret` lies in the engine category and has value `ret`; 0 is
`OpenSSL_errc::Success`, 1 is `OpenSSL_errc::Failure`; and the code denotes
success (`failed()` is false) exactly when `ret = 0`. -/
theorem ssl_error_code_verbatim (ret : Int) :
    ssl_error_code ret = ⟨ret, ErrCategory.OpenSSLErrCategory⟩ ∧
    (ssl_error_code ret).val = ret ∧
    (ssl_error_code ret).cat = ErrCategory.OpenSSLErrCategory ∧
    ssl_error_code 0 = make_error_code_OpenSSL OpenSSL_errc.Success ∧
    ssl_error_code 1 = make_error_code_OpenSSL OpenSSL_errc.Failure ∧
    ((ssl_error_code ret).failed = false ↔ ret = 0) := by
  have h : ssl_error_code ret = ⟨ret, ErrCategory.OpenSSLErrCategory⟩ := by
    unfold ssl_error_code make_error_code_OpenSSL OpenSSL_errc.Success OpenSSL_errc.Failure
    by_cases h0 : ret = 0
    · simp [h0]
    · by_cases h1 : ret = 1
      · simp [h1]
      · simp [h0, h1]
  refine ⟨h, by rw [h], by rw [h], rfl, rfl, ?_⟩
  rw [h]
  simp [error_code.failed]

/-- Claim C8: `OpenSSLErrCategory::message` returns "Success" for 0 and
"Failure" for 1, and for every other `err` it terminates the process instead of
returning; so asking `ssl_error_code ret` for its message terminates for every
`ret` outside 0 and 1. -/
theorem OpenSSL_message_terminates (err : Int) :
    OpenSSLErrCategory.message 0 = some "Success" ∧
    OpenSSLErrCategory.message 1 = some "Failure" ∧
    (err ≠ 0 → err ≠ 1 →
      OpenSSLErrCategory.message err = none ∧ (ssl_error_code err).message = none) := by
  refine ⟨rfl, rfl, ?_⟩
  intro h0 h1
  have h : OpenSSLErrCategory.message err = none := by
    simp [OpenSSLErrCategory.message, h0, h1]
  refine ⟨h, ?_⟩
  simp [ssl_error_code, make_error_code_OpenSSL, error_code.message, h0, h1, h]

/-- Witness for claim C8 at the engine return code 2. -/
theorem OpenSSL_message_terminates_witness :
    OpenSSLErrCategory.message 2 = none ∧ (ssl_error_code 2).message = none :=
  (OpenSSL_message_terminates 2).2.2 (by decide) (by decide)

/-- Claim C10: `TLSErrCategory::message` returns a string for every `err`; the
seven values 0..6 get seven pairwise distinct messages, none of them
"unknown error"; every `err` outside 0..6 gets "unknown error". -/
theorem TLS_message_total_injective (err : Int) :
    (∃ m : String, TLSErrCategory.message err = m) ∧
    ((List.range 7).map (fun n => TLSErrCategory.message (Int.ofNat n))).Nodup ∧
    "unknown error" ∉ (List.range 7).map (fun n => TLSErrCategory.message (Int.ofNat n)) ∧
    [TLS_errc.Success, TLS_errc.Failure, TLS_errc.ContextNotInit,
      TLS_errc.ContextAlreadyInit, TLS_errc.ContextFailedToInit,
      TLS_errc.OnlyValidForServerContext, TLS_errc.SessionIDMismatch]
      = (List.range 7).map (fun n => TLS_errc.mk (Int.ofNat n)) ∧
    (err < 0 ∨ 6 < err → TLSErrCategory.message err = "unknown error") := by
  refine ⟨⟨_, rfl⟩, by decide, by decide, by decide, ?_⟩
  intro h
  have h0 : err ≠ 0 := by omega
  have h1 : err ≠ 1 := by omega
  have h2 : err ≠ 2 := by omega
  have h3 : err ≠ 3 := by omega
  have h4 : err ≠ 4 := by omega
  have h5 : err ≠ 5 := by omega
  have h6 : err ≠ 6 := by omega
  simp [TLSErrCategory.message, TLS_errc.Success, TLS_errc.Failure,
    TLS_errc.ContextNotInit, TLS_errc.ContextAlreadyInit, TLS_errc.ContextFailedToInit,
    TLS_errc.OnlyValidForServerContext, TLS_errc.SessionIDMismatch,
    h0, h1, h2, h3, h4, h5, h6]

/-- Witness for claim C10 at the value 7, the first one past the enumerators. -/
theorem TLS_message_total_injective_witness :
    TLSErrCategory.message 7 = "unknown error" :=
  (TLS_message_total_injective 7).2.2.2.2 (Or.inr (by decide))

/-- Claim C5, as stated, fails: `enum class TLS_errc` declares no enumerator
named `Cancelled`, so not every one of the six listed adapter errors has a
code in the adapter error domain. -/
theorem TLS_errc_no_Cancelled :
    TLS_errc.ofName "Cancelled" = none ∧
    ¬ (∀ n ∈ ["ContextNotInit", "ContextAlreadyInit", "ContextFailedToInit",
        "OnlyValidForServerContext", "SessionIDMismatch", "Cancelled"],
        ∃ c, TLS_errc.ofName n = some c) := by
  have h : TLS_errc.ofName "Cancelled" = none := by decide
  refine ⟨h, ?_⟩
  intro hall
  obtain ⟨c, hc⟩ := hall "Cancelled" (by simp)
  rw [h] at hc
  exact Option.noConfusion hc

/-- Claim C5, amended: `TLS_errc` declares a code for each of `ContextNotInit`,
`ContextAlreadyInit`, `ContextFailedToInit`, `OnlyValidForServerContext` and
`SessionIDMismatch` (and none named `Cancelled`); these five codes are pairwise
distinct, each differs from `Success`, and the `error_code` that
`make_error_code` builds from any of them lies in the adapter category and
reports a failure. -/
theorem TLS_errc_adapter_codes :
    (["ContextNotInit", "ContextAlreadyInit", "ContextFailedToInit",
        "OnlyValidForServerContext", "SessionIDMismatch"].map TLS_errc.ofName
      = [some TLS_errc.ContextNotInit, some TLS_errc.ContextAlreadyInit,
          some TLS_errc.ContextFailedToInit, some TLS_errc.OnlyValidForServerContext,
          some TLS_errc.SessionIDMismatch]) ∧
    TLS_errc.ofName "Cancelled" = none ∧
    [TLS_errc.ContextNotInit, TLS_errc.ContextAlreadyInit, TLS_errc.ContextFailedToInit,
      TLS_errc.OnlyValidForServerContext, TLS_errc.SessionIDMismatch].Nodup ∧
    (∀ e ∈ [TLS_errc.ContextNotInit, TLS_errc.ContextAlreadyInit,
        TLS_errc.ContextFailedToInit, TLS_errc.OnlyValidForServerContext,
        TLS_errc.SessionIDMismatch],
      e ≠ TLS_errc.Success ∧
      (make_error_code_TLS e).val = e.val ∧
      (make_error_code_TLS e).cat = ErrCategory.TLSErrCategory ∧
      (make_error_code_TLS e).failed = true) := by
  refine ⟨by decide, by decide, by decide, ?_⟩
  decide

/-- Witness for the amended claim C5 at the code `SessionIDMismatch`. -/
theorem TLS_errc_adapter_codes_witness :
    TLS_errc.SessionIDMismatch ≠ TLS_errc.Success ∧
    (make_error_code_TLS TLS_errc.SessionIDMismatch).val = 6 ∧
    (make_error_code_TLS TLS_errc.SessionIDMismatch).cat = ErrCategory.TLSErrCategory ∧
    (make_error_code_TLS TLS_errc.SessionIDMismatch).failed = true :=
  TLS_errc_adapter_codes.2.2.2 TLS_errc.SessionIDMismatch (by decide)

/-! ## Theorems: OpenSSLContext -/

/-- Claim C7: `isInit()` and `operator bool` are true exactly when the shared
base is present; `mode()` returns the role stored in the base when `isInit()`
holds and `Both` when it does not; so an uninitialised context and a context
initialised with role `Both` report the same mode. -/
theorem mode_of_uninit_is_Both (c : OpenSSLContext) :
    (c.isInit = true ↔ ∃ b, c.mBase = some b) ∧
    c.toBool = c.isInit ∧
    (∀ b, c.mBase = some b → c.isInit = true ∧ c.mode = b.mMode) ∧
    (c.isInit = false → c.mode = Mode.Both) ∧
    (∀ b : Base, b.mMode = Mode.Both →
      (OpenSSLContext.mk none).isInit = false ∧ (OpenSSLContext.mk (some b)).isInit = true ∧
      (OpenSSLContext.mk none).mode = (OpenSSLContext.mk (some b)).mode) := by
  refine ⟨?_, rfl, ?_, ?_, ?_⟩
  · cases c with
    | mk mb => cases mb <;> simp [OpenSSLContext.isInit]
  · intro b hb
    simp [OpenSSLContext.isInit, OpenSSLContext.mode, hb]
  · intro h
    simp [OpenSSLContext.mode, h]
  · intro b hb
    simp [OpenSSLContext.isInit, OpenSSLContext.mode, hb]

/-- Witness for claim C7: the default-constructed context and a context whose
base stores `Both` are told apart by `isInit()` but not by `mode()`. -/
theorem mode_of_uninit_is_Both_witness :
    (OpenSSLContext.mk none).isInit = false ∧
    (OpenSSLContext.mk (some { mMode := Mode.Both })).isInit = true ∧
    (OpenSSLContext.mk none).mode = (OpenSSLContext.mk (some { mMode := Mode.Both })).mode :=
  (mode_of_uninit_is_Both {}).2.2.2.2 { mMode := Mode.Both } rfl

/-- Claim C1: `init` on a context that is initialised already fails with
`ContextAlreadyInit` and leaves the context as it was; every other mutator
(`loadCert`, `loadCertFile`, `loadKeyPair`, `loadKeyPairFile`,
`requestClientCert`) on a context that is not initialised fails with
`ContextNotInit`. -/
theorem context_misuse_ordering (c : OpenSSLContext) :
    (c.isInit = true → ∀ (mode : Mode) (engineOk : Bool),
      c.init mode engineOk = (c, make_error_code_TLS TLS_errc.ContextAlreadyInit)) ∧
    (c.isInit = false →
      (∀ data ret, c.loadCert data ret
        = (c, make_error_code_TLS TLS_errc.ContextNotInit)) ∧
      (∀ rd path ret, c.loadCertFile rd path ret
        = (c, make_error_code_TLS TLS_errc.ContextNotInit)) ∧
      (∀ pk sk ret, c.loadKeyPair pk sk ret
        = (c, make_error_code_TLS TLS_errc.ContextNotInit)) ∧
      (∀ rd pkPath skPath ret, c.loadKeyPairFile rd pkPath skPath ret
        = (c, make_error_code_TLS TLS_errc.ContextNotInit)) ∧
      c.requestClientCert = (c, make_error_code_TLS TLS_errc.ContextNotInit)) := by
  constructor
  · intro h mode ok
    simp [OpenSSLContext.init, h]
  · intro h
    have hb : c.mBase = none := by
      cases c with
      | mk mb => cases mb <;> simp_all [OpenSSLContext.isInit]
    refine ⟨?_, ?_, ?_, ?_, ?_⟩
    · intro data ret
      simp [OpenSSLContext.loadCert, hb]
    · intro rd path ret
      simp [OpenSSLContext.loadCertFile, h]
    · intro pk sk ret
      simp [OpenSSLContext.loadKeyPair, hb]
    · intro rd pkPath skPath ret
      simp [OpenSSLContext.loadKeyPairFile, h]
    · simp [OpenSSLContext.requestClientCert, hb]

/-- Witness for claim C1: a second `init` after a successful one, and
`loadCert` on the default-constructed context. -/
theorem context_misuse_ordering_witness :
    ((({} : OpenSSLContext).init Mode.Server true).1.init Mode.Client true
      = ((({} : OpenSSLContext).init Mode.Server true).1,
          make_error_code_TLS TLS_errc.ContextAlreadyInit)) ∧
    (({} : OpenSSLContext).loadCert [1, 2, 3] 0
      = ({}, make_error_code_TLS TLS_errc.ContextNotInit)) :=
  ⟨(context_misuse_ordering (({} : OpenSSLContext).init Mode.Server true).1).1
      (by decide) Mode.Client true,
   ((context_misuse_ordering {}).2 (by decide)).1 [1, 2, 3] 0⟩

/-- Claim C2: on an initialised context `requestClientCert` fails with
`OnlyValidForServerContext` when the role is `Client`, and when the role is
`Server` or `Both` it succeeds, so it does not fail with that error. -/
theorem requestClientCert_role (c : OpenSSLContext) (h : c.isInit = true) :
    (c.mode = Mode.Client →
      c.requestClientCert
        = (c, make_error_code_TLS TLS_errc.OnlyValidForServerContext)) ∧
    (c.mode = Mode.Server ∨ c.mode = Mode.Both →
      c.requestClientCert.2 ≠ make_error_code_TLS TLS_errc.OnlyValidForServerContext ∧
      c.requestClientCert.2.failed = false ∧
      c.requestClientCert.1.mode = c.mode) := by
  obtain ⟨mb⟩ := c
  cases mb with
  | none => simp [OpenSSLContext.isInit] at h
  | some b =>
    obtain ⟨m, x, md⟩ := b
    cases md <;>
      simp [OpenSSLContext.mode, OpenSSLContext.isInit, OpenSSLContext.requestClientCert,
        make_error_code_TLS, error_code.failed, TLS_errc.OnlyValidForServerContext,
        TLS_errc.Success]

/-- Witness for claim C2 on a context initialised as `Client` and on one
initialised as `Server`. -/
theorem requestClientCert_role_witness :
    ((({} : OpenSSLContext).init Mode.Client true).1.requestClientCert
      = ((({} : OpenSSLContext).init Mode.Client true).1,
          make_error_code_TLS TLS_errc.OnlyValidForServerContext)) ∧
    ((({} : OpenSSLContext).init Mode.Server true).1.requestClientCert.2
      ≠ make_error_code_TLS TLS_errc.OnlyValidForServerContext) :=
  ⟨(requestClientCert_role (({} : OpenSSLContext).init Mode.Client true).1 (by decide)).1
      (by decide),
   ((requestClientCert_role (({} : OpenSSLContext).init Mode.Server true).1 (by decide)).2
      (Or.inl (by decide))).1⟩

/-! ## Theorems: OpenSSLSocket -/

/-- Claim C9: `hasSendBuffer()` holds exactly when `mSendBufIdx` is below
`mSendBufs.size()`, and then `curSendBuffer()` indexes inside the vector;
likewise for the receive side. With an empty buffer list and cursor 0, and
whenever the cursor equals the list length, there is no current buffer. -/
theorem buffer_cursor_safety (s : OpenSSLSocket) :
    (s.hasSendBuffer = true ↔ s.mSendBufIdx < s.mSendBufs.length) ∧
    (s.hasRecvBuffer = true ↔ s.mRecvBufIdx < s.mRecvBufs.length) ∧
    (s.hasSendBuffer = true ↔ ∃ b, s.curSendBuffer = some b) ∧
    (s.hasRecvBuffer = true ↔ ∃ b, s.curRecvBuffer = some b) ∧
    (s.mSendBufs = [] → s.mSendBufIdx = 0 →
      s.hasSendBuffer = false ∧ s.curSendBuffer = none) ∧
    (s.mRecvBufs = [] → s.mRecvBufIdx = 0 →
      s.hasRecvBuffer = false ∧ s.curRecvBuffer = none) ∧
    (s.mSendBufIdx = s.mSendBufs.length →
      s.hasSendBuffer = false ∧ s.curSendBuffer = none) ∧
    (s.mRecvBufIdx = s.mRecvBufs.length →
      s.hasRecvBuffer = false ∧ s.curRecvBuffer = none) := by
  have hs : s.hasSendBuffer = true ↔ s.mSendBufIdx < s.mSendBufs.length := by
    simp [OpenSSLSocket.hasSendBuffer]
  have hr : s.hasRecvBuffer = true ↔ s.mRecvBufIdx < s.mRecvBufs.length := by
    simp [OpenSSLSocket.hasRecvBuffer]
  refine ⟨hs, hr, ?_, ?_, ?_, ?_, ?_, ?_⟩
  · rw [hs]
    constructor
    · intro h
      exact ⟨s.mSendBufs[s.mSendBufIdx], by simp [OpenSSLSocket.curSendBuffer, h]⟩
    · rintro ⟨b, hb⟩
      by_contra hn
      simp [OpenSSLSocket.curSendBuffer, List.getElem?_eq_none (Nat.le_of_not_lt hn)] at hb
  · rw [hr]
    constructor
    · intro h
      exact ⟨s.mRecvBufs[s.mRecvBufIdx], by simp [OpenSSLSocket.curRecvBuffer, h]⟩
    · rintro ⟨b, hb⟩
      by_contra hn
      simp [OpenSSLSocket.curRecvBuffer, List.getElem?_eq_none (Nat.le_of_not_lt hn)] at hb
  · intro h1 h2
    simp [OpenSSLSocket.hasSendBuffer, OpenSSLSocket.curSendBuffer, h1, h2]
  · intro h1 h2
    simp [OpenSSLSocket.hasRecvBuffer, OpenSSLSocket.curRecvBuffer, h1, h2]
  · intro h
    simp [OpenSSLSocket.hasSendBuffer, OpenSSLSocket.curSendBuffer, h]
  · intro h
    simp [OpenSSLSocket.hasRecvBuffer, OpenSSLSocket.curRecvBuffer, h]

/-- Witness for claim C9: a socket with two send buffers and the cursor past
the last one, and no receive buffers. -/
theorem buffer_cursor_safety_witness :
    (({ mSendBufs := [⟨16, 4⟩, ⟨32, 8⟩], mSendBufIdx := 2 } : OpenSSLSocket).hasSendBuffer
        = false ∧
      ({ mSendBufs := [⟨16, 4⟩, ⟨32, 8⟩], mSendBufIdx := 2 } : OpenSSLSocket).curSendBuffer
        = none) ∧
    (({ mSendBufs := [⟨16, 4⟩, ⟨32, 8⟩], mSendBufIdx := 2 } : OpenSSLSocket).hasRecvBuffer
        = false ∧
      ({ mSendBufs := [⟨16, 4⟩, ⟨32, 8⟩], mSendBufIdx := 2 } : OpenSSLSocket).curRecvBuffer
        = none) :=
  ⟨(buffer_cursor_safety { mSendBufs := [⟨16, 4⟩, ⟨32, 8⟩], mSendBufIdx := 2 }).2.2.2.2.2.2.1 rfl,
   (buffer_cursor_safety { mSendBufs := [⟨16, 4⟩, ⟨32, 8⟩], mSendBufIdx := 2 }).2.2.2.2.2.1
      rfl rfl⟩

/-- Every step keeps the phase or follows an edge of the phase diagram. -/
theorem OpenSSLSocket.step_phase (s : OpenSSLSocket) (e : Event) :
    (s.step e).mState.mPhase = s.mState.mPhase ∨
    Phase.edge s.mState.mPhase (s.step e).mState.mPhase = true := by
  cases hp : s.mState.mPhase <;> cases e <;>
    simp [OpenSSLSocket.step, OpenSSLSocket.async_connect, OpenSSLSocket.async_accept,
      OpenSSLSocket.async_send, OpenSSLSocket.async_recv, OpenSSLSocket.cancel,
      OpenSSLSocket.close, OpenSSLSocket.handshakeDone, OpenSSLSocket.failure,
      OpenSSLSocket.completion, OpenSSLSocket.setPhase, Phase.edge, hp] <;>
    split <;> simp [Phase.edge, hp]

/-- A step from phase `Closed` ends in phase `Closed`. -/
theorem OpenSSLSocket.step_closed (s : OpenSSLSocket) (e : Event)
    (h : s.mState.mPhase = Phase.Closed) : (s.step e).mState.mPhase = Phase.Closed := by
  cases e <;>
    simp [OpenSSLSocket.step, OpenSSLSocket.async_connect, OpenSSLSocket.async_accept,
      OpenSSLSocket.async_send, OpenSSLSocket.async_recv, OpenSSLSocket.cancel,
      OpenSSLSocket.close, OpenSSLSocket.handshakeDone, OpenSSLSocket.failure,
      OpenSSLSocket.completion, OpenSSLSocket.setPhase, h]
  split <;> simp [h]

/-- A run from phase `Closed` ends in phase `Closed`. -/
theorem OpenSSLSocket.run_closed (es : List Event) :
    ∀ s : OpenSSLSocket, s.mState.mPhase = Phase.Closed →
      (s.run es).mState.mPhase = Phase.Closed := by
  induction es with
  | nil => intro s h; exact h
  | cons e es ih =>
    intro s h
    exact ih (s.step e) (OpenSSLSocket.step_closed s e h)

/-- Claim C3: a newly constructed socket is in phase `Uninit`; every step
keeps the phase or follows an edge of
`Uninit -> Connect | Accept -> Normal -> Closed` (`Closed` being reachable
from every phase, by `close()`), and each edge is taken by some step; `Closed`
is absorbing: each of `async_connect`, `async_accept`, `async_send`,
`async_recv`, `cancel`, `close`, and each completion, leaves a socket in phase
`Closed` in phase `Closed`. -/
theorem phase_state_machine :
    ({} : State).mPhase = Phase.Uninit ∧
    (∀ ssl sockOpen, (OpenSSLSocket.new ssl sockOpen).mState.mPhase = Phase.Uninit) ∧
    (∀ (s : OpenSSLSocket) (e : Event),
      (s.step e).mState.mPhase = s.mState.mPhase ∨
      Phase.edge s.mState.mPhase (s.step e).mState.mPhase = true) ∧
    (∀ p q, Phase.edge p q = true →
      ∃ (s : OpenSSLSocket) (e : Event), s.mState.mPhase = p ∧ (s.step e).mState.mPhase = q) ∧
    (∀ s : OpenSSLSocket, (s.step Event.close).mState.mPhase = Phase.Closed) ∧
    (∀ (s : OpenSSLSocket) (e : Event), s.mState.mPhase = Phase.Closed →
      (s.step e).mState.mPhase = Phase.Closed) ∧
    (∀ (s : OpenSSLSocket) (es : List Event), s.mState.mPhase = Phase.Closed →
      (s.run es).mState.mPhase = Phase.Closed) := by
  refine ⟨rfl, fun _ _ => rfl, OpenSSLSocket.step_phase, ?_, fun _ => rfl,
    OpenSSLSocket.step_closed, fun s es h => OpenSSLSocket.run_closed es s h⟩
  intro p q h
  refine ⟨OpenSSLSocket.setPhase {} p,
    (match q with
      | Phase.Connect => Event.async_connect
      | Phase.Accept => Event.async_accept
      | Phase.Normal => Event.handshakeDone true
      | _ => Event.close), rfl, ?_⟩
  cases p <;> cases q <;> first | rfl | simp [Phase.edge] at h

/-- Witness for claim C3: a socket taken through connect, handshake and close
is in phase `Closed`, and a later `async_send` leaves it there. -/
theorem phase_state_machine_witness :
    (((OpenSSLSocket.new (some 1) true).run
        [Event.async_connect, Event.handshakeDone true, Event.close]).step
      (Event.async_send [⟨16, 4⟩])).mState.mPhase = Phase.Closed :=
  phase_state_machine.2.2.2.2.2.1
    ((OpenSSLSocket.new (some 1) true).run
      [Event.async_connect, Event.handshakeDone true, Event.close])
    (Event.async_send [⟨16, 4⟩]) (by decide)

end osuCrypto
